import Mathlib

/-!
Shallow embedding of the `blueprint` monitoring/evaluation pipeline
(`src/monitoring/app.py` and the helper `src/monitoring/list_gemini_models.py`).

The pipeline loads a `capsules.json` artifact, flattens it into rows,
optionally runs LLM evaluations, merges the classifier outputs back onto the
table by column renames, writes CSV reports, and appends to a history log.
Python dynamic values are embedded as follows: optional/absent string fields
become `""` when their only use is truthiness together with a `.get(_, "")`
default, genuinely optional compound fields become `Option`, environment
variables become `Option String`, file-system outcomes become explicit
state types, and the external classifier backend becomes a free parameter
carrying either its result tables or a failure.
-/

/-- Truthiness of an environment-variable read (`os.getenv` result):
Python `if not api_key` is false exactly when the variable is set to a
non-empty string. -/
def envTruthy (v : Option String) : Bool := v.getD "" != ""

/-- The two environment variables read by the repository. -/
structure Env where
  gemini : Option String
  google : Option String
deriving DecidableEq

/-- The `metadata` object of a capsule (only the fields read by `load_data`:
`functionSignatures` and `firstNLines`). -/
structure CapsuleMetadata where
  functionSignatures : List String
  firstNLines : String
deriving DecidableEq

/-- One capsule entry of the input JSON's `files` mapping, restricted to the
fields the readers access.  String fields read with a falsy default are
plain `String` with `""` standing for absent; `metadata` is `Option` because
the code branches on its truthiness as an object. -/
structure Capsule where
  relativePath : String
  lang : String
  name : String
  upperLevelSummary : String
  lowerLevelSummary : String
  upperLevelSummaryVersion : Option String
  lowerLevelSummaryVersion : Option String
  exports : List String
  imports : List String
  structureBlocks : List String
  metadata : Option CapsuleMetadata
deriving DecidableEq

/-- Python string slicing `s[:n]` (character based). -/
def strTrunc (n : Nat) (s : String) : String := { data := s.data.take n }

/-- The dictionary serialized into the `input` column by `load_data`
(the JSON serialization itself is kept structural). -/
structure InputCtx where
  relativePath : String
  lang : String
  exports : List String
  functionSignatures : List String
  firstNLines : String
deriving DecidableEq

/-- One upper-level Evaluation Record (a row of the DataFrame built by
`load_data`). -/
structure Record where
  id : String
  input : InputCtx
  output : String
  language : String
  name : String
  has_summary : Bool
  prompt_version : String
deriving DecidableEq

/-- The record `load_data` builds for one `(file_path, capsule)` item. -/
def mkRecord (path : String) (c : Capsule) : Record :=
  let md := c.metadata.getD { functionSignatures := [], firstNLines := "" }
  { id := path
    input :=
      { relativePath := c.relativePath
        lang := c.lang
        exports := c.exports
        functionSignatures := md.functionSignatures
        firstNLines := strTrunc 500 md.firstNLines }
    output := c.upperLevelSummary
    language := c.lang
    name := c.name
    has_summary := c.upperLevelSummary != ""
    prompt_version := c.upperLevelSummaryVersion.getD "v1_balanced" }

/-- The include condition of `load_data`:
`if capsule.get("upperLevelSummary") or capsule.get("metadata"):`. -/
def capsuleIncluded (c : Capsule) : Bool :=
  c.upperLevelSummary != "" || c.metadata.isSome

/-- State of the input artifact as seen by the readers: the file may be
missing, present but not valid JSON (`json.load` raises, caught by the
reader), or a parsed document with its `files` mapping (as an association
list in iteration order). -/
inductive FileState where
  | missing
  | malformed
  | valid (files : List (String × Capsule))
deriving DecidableEq

/-- `load_data`: `None` on missing file or on any exception (malformed
JSON), otherwise one record per capsule passing the include condition. -/
def load_data : FileState → Option (List Record)
  | FileState.missing => none
  | FileState.malformed => none
  | FileState.valid files =>
      some (files.filterMap fun pc =>
        if capsuleIncluded pc.2 then some (mkRecord pc.1 pc.2) else none)

/-- One lower-level Evaluation Record (a row of the DataFrame built by
`load_lower_level_data`). -/
structure LowerRecord where
  id : String
  relativePath : String
  lang : String
  exports : List String
  imports : List String
  output : String
  language : String
  name : String
  num_blocks : Nat
  structureBlocks : List String
  prompt_version : String
deriving DecidableEq

/-- The record `load_lower_level_data` builds for one item. -/
def mkLowerRecord (path : String) (c : Capsule) : LowerRecord :=
  { id := path
    relativePath := c.relativePath
    lang := c.lang
    exports := c.exports
    imports := c.imports
    output := c.lowerLevelSummary
    language := c.lang
    name := c.name
    num_blocks := c.structureBlocks.length
    structureBlocks := c.structureBlocks
    prompt_version := c.lowerLevelSummaryVersion.getD "v1_structured" }

/-- `load_lower_level_data`: `None` on missing file or exception, otherwise
one record per capsule with a truthy `lowerLevelSummary`. -/
def load_lower_level_data : FileState → Option (List LowerRecord)
  | FileState.missing => none
  | FileState.malformed => none
  | FileState.valid files =>
      some (files.filterMap fun pc =>
        if pc.2.lowerLevelSummary != "" then some (mkLowerRecord pc.1 pc.2) else none)

/-- A capsule carrying only `metadata`, with an empty upper-level summary:
`load_data` still includes it because its condition is a disjunction. -/
def mdOnlyCapsule : Capsule :=
  { relativePath := "a.py"
    lang := "python"
    name := "a"
    upperLevelSummary := ""
    lowerLevelSummary := ""
    upperLevelSummaryVersion := none
    lowerLevelSummaryVersion := none
    exports := []
    imports := []
    structureBlocks := []
    metadata := some { functionSignatures := [], firstNLines := "x" } }

/-- C1 counterexample: on a `files` mapping holding one capsule with an
empty `upperLevelSummary` but a non-empty `metadata` object, `load_data`
produces 1 row while the count of capsules with a non-empty summary field
is 0, so the Reader row count does not equal the non-empty-summary count
and a capsule lacking the summary field is not skipped. -/
theorem C1_counterexample :
    (load_data (FileState.valid [("a.py", mdOnlyCapsule)])).map List.length = some 1 ∧
    (([("a.py", mdOnlyCapsule)] : List (String × Capsule)).filter
        fun pc => pc.2.upperLevelSummary != "").length = 0 := by
  decide

/-- C1 (amended): `load_data` produces exactly one record per capsule whose
`upperLevelSummary` is non-empty or whose `metadata` object is present and
non-empty, and no record for any other capsule; the row count equals the
count of capsules satisfying that disjunctive condition. -/
theorem C1_amended (files : List (String × Capsule)) :
    load_data (FileState.valid files) =
      some ((files.filter fun pc => capsuleIncluded pc.2).map fun pc => mkRecord pc.1 pc.2) ∧
    (load_data (FileState.valid files)).map List.length =
      some ((files.filter fun pc => capsuleIncluded pc.2).length) := by
  have key : (files.filterMap fun pc =>
        if capsuleIncluded pc.2 then some (mkRecord pc.1 pc.2) else none)
      = (files.filter fun pc => capsuleIncluded pc.2).map fun pc => mkRecord pc.1 pc.2 := by
    induction files with
    | nil => rfl
    | cons pc rest ih =>
        cases hc : capsuleIncluded pc.2 <;>
          simp [List.filterMap_cons, List.filter_cons, hc, ih]
  exact ⟨by simp [load_data, key], by simp [load_data, key]⟩

/-- Values a DataFrame cell can hold in the merge step. -/
inductive MetricVal where
  | num (q : Rat)
  | missing
deriving DecidableEq

/-- A cell of the record table: a string, a coerced numeric (or the NaN
missing marker), a small integer, or a boolean. -/
inductive CellVal where
  | str (s : String)
  | metric (m : MetricVal)
  | nat (n : Nat)
  | bool (b : Bool)
deriving DecidableEq

/-- A DataFrame row as an ordered association list of named columns. -/
abbrev Row := List (String × CellVal)

/-- `df.rename(columns=...)` on one row. -/
def renameCols (f : String → String) (r : Row) : Row :=
  r.map fun kv => (f kv.1, kv.2)

/-- In-place column update `df[c] = df[c].apply(f)`-style on one row. -/
def setCol (c : String) (f : CellVal → CellVal) (r : Row) : Row :=
  r.map fun kv => if kv.1 = c then (kv.1, f kv.2) else kv

/-- Lookup of a named column in a row. -/
def findCol (c : String) (r : Row) : Option CellVal :=
  (r.find? fun kv => kv.1 == c).map Prod.snd

/-- Column selection `df[[c1, c2, ...]]` on one row. -/
def selectCols (cols : List String) (r : Row) : Row :=
  cols.filterMap fun c => (findCol c r).map fun v => (c, v)

/-- Reading a column with a NaN fallback. -/
def getCell (c : String) (r : Row) : CellVal :=
  (findCol c r).getD (CellVal.metric MetricVal.missing)

/-- New-column assignment `df[c] = df.apply(f)` on one row (pandas places
the new column last). -/
def addCol (c : String) (f : Row → CellVal) (r : Row) : Row :=
  r ++ [(c, f r)]

/-- Value of a run of decimal digit characters. -/
def digitsVal (l : List Char) : Nat :=
  l.foldl (fun a c => a * 10 + (c.toNat - 48)) 0

/-- Parse an unsigned decimal numeral, with an optional fractional part,
from a character list; `none` when the characters do not form a number. -/
def parseUnsigned (l : List Char) : Option Rat :=
  let ip := l.takeWhile Char.isDigit
  let rest := l.drop ip.length
  match rest with
  | [] => if ip.isEmpty then none else some ((digitsVal ip : Int) : Rat)
  | '.' :: fp =>
      if fp.all Char.isDigit && !(ip.isEmpty && fp.isEmpty) then
        some (mkRat ((digitsVal ip) * 10 ^ fp.length + digitsVal fp) (10 ^ fp.length))
      else none
  | _ => none

/-- The numeric parse underlying `pd.to_numeric`: surrounding whitespace is
stripped, an optional sign is allowed, and anything that is not a decimal
numeral yields `none`. -/
def parseDecimal (s : String) : Option Rat :=
  let l := ((s.data.dropWhile Char.isWhitespace).reverse.dropWhile Char.isWhitespace).reverse
  match l with
  | '-' :: r => (parseUnsigned r).map fun q => -q
  | '+' :: r => parseUnsigned r
  | r => parseUnsigned r

/-- `pd.to_numeric(_, errors='coerce')` on one cell: strings parse to a
number or coerce to the NaN missing marker; numeric cells pass through. -/
def toNumericCoerce : CellVal → CellVal
  | CellVal.str s =>
      match parseDecimal s with
      | some q => CellVal.metric (MetricVal.num q)
      | none => CellVal.metric MetricVal.missing
  | CellVal.metric m => CellVal.metric m
  | CellVal.nat n => CellVal.metric (MetricVal.num n)
  | CellVal.bool b => CellVal.metric (MetricVal.num (if b then 1 else 0))

/-- The clarity rename map of `main`. -/
def clarityRenameKey (k : String) : String :=
  if k = "label" then "clarity_score"
  else if k = "explanation" then "clarity_explanation"
  else if k = "score" then "clarity_numeric"
  else k

/-- The clarity columns appended by the merge: rename, coerce the score to
numeric, and keep only the two named columns (the confidence column
`clarity_numeric` is dropped by the selection). -/
def clarityCols (evalRow : Row) : Row :=
  selectCols ["clarity_score", "clarity_explanation"]
    (setCol "clarity_score" toNumericCoerce (renameCols clarityRenameKey evalRow))

/-- The verbosity rename map of `main`. -/
def verbosityRenameKey (k : String) : String :=
  if k = "label" then "verbosity_label"
  else if k = "explanation" then "verbosity_explanation"
  else if k = "score" then "verbosity_confidence"
  else k

/-- Python `str(x)` on a cell value, as used by the verbosity lambda. -/
def cellStr : CellVal → String
  | CellVal.str s => s
  | CellVal.metric (MetricVal.num q) => toString q
  | CellVal.metric MetricVal.missing => "nan"
  | CellVal.nat n => toString n
  | CellVal.bool b => toString b

/-- Python `str.lower()` (character-wise ASCII lowercasing). -/
def strLower (s : String) : String := { data := s.data.map Char.toLower }

/-- The pass derivation `lambda x: 1 if str(x).lower() == "good" else 0`. -/
def verbosityIsGood (x : String) : Nat :=
  if strLower x = "good" then 1 else 0

/-- The verbosity columns appended by the merge: rename, derive the
`verbosity_is_good` flag from the label, and keep the three named columns
(the confidence column `verbosity_confidence` is dropped). -/
def verbosityCols (evalRow : Row) : Row :=
  selectCols ["verbosity_label", "verbosity_explanation", "verbosity_is_good"]
    (addCol "verbosity_is_good"
      (fun row => CellVal.nat (verbosityIsGood (cellStr (getCell "verbosity_label" row))))
      (renameCols verbosityRenameKey evalRow))

/-- The completeness rename map of `main`. -/
def completenessRenameKey (k : String) : String :=
  if k = "label" then "completeness_score"
  else if k = "explanation" then "completeness_explanation"
  else if k = "score" then "completeness_numeric"
  else k

/-- The completeness columns appended by the merge. -/
def completenessCols (evalRow : Row) : Row :=
  selectCols ["completeness_score", "completeness_explanation"]
    (setCol "completeness_score" toNumericCoerce (renameCols completenessRenameKey evalRow))

/-- The detail rename map of the lower-level merge (the `score` column is
not renamed there; the selection drops it regardless). -/
def detailRenameKey (k : String) : String :=
  if k = "label" then "detail_score"
  else if k = "explanation" then "detail_explanation"
  else k

/-- The detail columns appended by the lower-level merge. -/
def detailCols (evalRow : Row) : Row :=
  selectCols ["detail_score", "detail_explanation"]
    (setCol "detail_score" toNumericCoerce (renameCols detailRenameKey evalRow))

/-- The accuracy rename map of the lower-level merge. -/
def accuracyRenameKey (k : String) : String :=
  if k = "label" then "accuracy_score"
  else if k = "explanation" then "accuracy_explanation"
  else k

/-- The accuracy columns appended by the lower-level merge. -/
def accuracyCols (evalRow : Row) : Row :=
  selectCols ["accuracy_score", "accuracy_explanation"]
    (setCol "accuracy_score" toNumericCoerce (renameCols accuracyRenameKey evalRow))

/-- The three upper-level joins of `main`, per row:
`df.join(clarity).join(verbosity).join(completeness)`. -/
def mergeUpperRow (base cl vb cp : Row) : Row :=
  ((base ++ clarityCols cl) ++ verbosityCols vb) ++ completenessCols cp

/-- The external classifier backend as seen by `run_evals`: either it
returns a list of result tables (one DataFrame per evaluator) or the call
raises (caught by the caller). -/
inductive Backend where
  | ok (tables : List (List Row))
  | fail
deriving DecidableEq

/-- `run_evaluations`: returns `None` when `GEMINI_API_KEY` is unset or
empty (no fallback name is consulted), and `None` when the external batch
call raises; otherwise the backend's result tables. -/
def run_evaluations (env : Env) (df : List Record) (b : Backend) :
    Option (List (List Row)) :=
  if envTruthy env.gemini then
    match b with
    | Backend.ok tables => some tables
    | Backend.fail => none
  else none

/-- `run_lower_level_evaluations`: same credential gate and failure
handling as `run_evaluations`. -/
def run_lower_level_evaluations (env : Env) (df : List LowerRecord) (b : Backend) :
    Option (List (List Row)) :=
  if envTruthy env.gemini then
    match b with
    | Backend.ok tables => some tables
    | Backend.fail => none
  else none

/-- The api-key lookup of `list_gemini_models.py`: `GEMINI_API_KEY` first,
falling back to `GOOGLE_API_KEY` when the first is unset or empty. -/
def list_models_api_key (env : Env) : Option String :=
  if envTruthy env.gemini then env.gemini else env.google

/-- The history CSV state: its header line and its data rows. -/
structure HistoryFile where
  header : String
  rows : List String
deriving DecidableEq

/-- The history write of `main`: when the file does not exist,
`to_csv` creates it with a header and the single record row; otherwise
`to_csv(mode='a', header=False)` appends the single row. -/
def appendHistory (existing : Option HistoryFile) (header row : String) : HistoryFile :=
  match existing with
  | none => { header := header, rows := [row] }
  | some f => { header := f.header, rows := f.rows ++ [row] }

/-- C6: the history CSV is created with a header plus exactly one data row
on the first run, and on every later run exactly one row is appended with
the header and all prior rows unchanged (the old rows stay an unmodified
initial segment of the new file). -/
theorem C6_history_append (header row : String) (f : HistoryFile) :
    appendHistory none header row = { header := header, rows := [row] } ∧
    (appendHistory (some f) header row).header = f.header ∧
    (appendHistory (some f) header row).rows = f.rows ++ [row] ∧
    (appendHistory (some f) header row).rows.take f.rows.length = f.rows := by
  refine ⟨rfl, rfl, rfl, ?_⟩
  simp [appendHistory]

/-- The inputs of one invocation of `main`: the artifact state, the
environment, the (free) behaviours of the two external evaluation calls,
and the `--headless` flag. -/
structure RunInputs where
  fs : FileState
  env : Env
  backend : Backend
  backendLower : Backend
  headless : Bool
deriving DecidableEq

/-- The observable effects of one invocation of `main`. -/
structure MainEffects where
  loadedCount : Option Nat
  evalRan : Bool
  rawCsvWritten : Bool
  statsCsvWritten : Bool
  historyAppended : Bool
  lowerLoadedCount : Option Nat
  lowerEvalRan : Bool
  lowerCsvWritten : Bool
  lowerHistoryAppended : Bool
  uiLaunched : Bool
  noDataReported : Bool
  exitCode : Option Nat
deriving DecidableEq

/-- Effects of the `main` branch taken when `df` is `None` or empty:
"No data found to inspect." is printed and, only in headless mode,
`sys.exit(1)` is called. -/
def noDataEffects (fs : FileState) (headless : Bool) : MainEffects :=
  { loadedCount := (load_data fs).map List.length
    evalRan := false
    rawCsvWritten := false
    statsCsvWritten := false
    historyAppended := false
    lowerLoadedCount := none
    lowerEvalRan := false
    lowerCsvWritten := false
    lowerHistoryAppended := false
    uiLaunched := false
    noDataReported := true
    exitCode := if headless then some 1 else none }

/-- `main` as a function from run inputs to observable effects, mirroring
the control flow of `src/monitoring/app.py`: load, evaluate, and note that
the raw CSV, stats CSV and history append all sit inside the
`if eval_results is not None:` block; the lower-level section mirrors the
upper one; the UI launches only when not headless; the only nonzero exit
is the headless no-data case. -/
def mainModel (i : RunInputs) : MainEffects :=
  match load_data i.fs with
  | none => noDataEffects i.fs i.headless
  | some records =>
      if records.isEmpty then noDataEffects i.fs i.headless
      else
        let evalResults := run_evaluations i.env records i.backend
        let upperOk := evalResults.isSome
        let dfLower := load_lower_level_data i.fs
        let lowerNonempty := match dfLower with
          | some rs => !rs.isEmpty
          | none => false
        let lowerEval :=
          if lowerNonempty then
            run_lower_level_evaluations i.env (dfLower.getD []) i.backendLower
          else none
        { loadedCount := some records.length
          evalRan := upperOk
          rawCsvWritten := upperOk
          statsCsvWritten := upperOk
          historyAppended := upperOk
          lowerLoadedCount := dfLower.map List.length
          lowerEvalRan := lowerEval.isSome
          lowerCsvWritten := lowerEval.isSome
          lowerHistoryAppended := lowerEval.isSome
          uiLaunched := !i.headless
          noDataReported := false
          exitCode := none }

/-- A capsule with a non-empty upper-level summary and no metadata. -/
def summaryCapsule : Capsule :=
  { relativePath := "b.py"
    lang := "python"
    name := "b"
    upperLevelSummary := "ok"
    lowerLevelSummary := ""
    upperLevelSummaryVersion := none
    lowerLevelSummaryVersion := none
    exports := []
    imports := []
    structureBlocks := []
    metadata := none }

/-- A run over a one-record table with neither credential variable set. -/
def noKeyRun : RunInputs :=
  { fs := FileState.valid [("b.py", summaryCapsule)]
    env := { gemini := none, google := none }
    backend := Backend.ok []
    backendLower := Backend.ok []
    headless := true }

/-- C2 counterexample: with a non-empty record table and the credential
variable unset, the evaluation phase is skipped but the raw per-record CSV
is NOT written — the raw save sits inside the `if eval_results is not
None:` block, so nothing is persisted for that run. -/
theorem C2_counterexample :
    envTruthy noKeyRun.env.gemini = false ∧
    (mainModel noKeyRun).loadedCount = some 1 ∧
    (mainModel noKeyRun).evalRan = false ∧
    (mainModel noKeyRun).rawCsvWritten = false := by
  decide

/-- C2 (amended): for every run with a non-empty record table where the
credential environment variable is missing, the evaluation phase is skipped
and no CSV at all is written for that run (the raw per-record CSV, the
stats CSV and the history append are all skipped along with evaluation);
the run still completes without a crash or nonzero exit. -/
theorem C2_amended (i : RunInputs) (rs : List Record)
    (h1 : load_data i.fs = some rs) (h2 : rs.isEmpty = false)
    (h3 : envTruthy i.env.gemini = false) :
    (mainModel i).loadedCount = some rs.length ∧
    (mainModel i).evalRan = false ∧
    (mainModel i).rawCsvWritten = false ∧
    (mainModel i).statsCsvWritten = false ∧
    (mainModel i).historyAppended = false ∧
    (mainModel i).lowerCsvWritten = false ∧
    (mainModel i).exitCode = none ∧
    (mainModel i).noDataReported = false := by
  simp [mainModel, h1, h2, run_evaluations, run_lower_level_evaluations, h3]

/-- C2 witness: the amended behaviour evaluated on the concrete
one-record, no-credential run. -/
theorem C2_witness :
    (mainModel noKeyRun).loadedCount = some 1 ∧
    (mainModel noKeyRun).evalRan = false ∧
    (mainModel noKeyRun).rawCsvWritten = false ∧
    (mainModel noKeyRun).statsCsvWritten = false ∧
    (mainModel noKeyRun).historyAppended = false ∧
    (mainModel noKeyRun).lowerCsvWritten = false ∧
    (mainModel noKeyRun).exitCode = none ∧
    (mainModel noKeyRun).noDataReported = false :=
  C2_amended noKeyRun [mkRecord "b.py" summaryCapsule] (by decide) (by decide) (by decide)

/-- An environment where only the fallback variable is set. -/
def googleOnlyEnv : Env := { gemini := none, google := some "key" }

/-- C3 counterexample: with `GOOGLE_API_KEY` set but `GEMINI_API_KEY`
unset, the pipeline's evaluation phase still short-circuits to no results —
the evaluation functions consult only the first name; the two-name fallback
exists only in the helper model-listing script. -/
theorem C3_counterexample :
    envTruthy googleOnlyEnv.google = true ∧
    run_evaluations googleOnlyEnv [] (Backend.ok []) = none ∧
    run_lower_level_evaluations googleOnlyEnv [] (Backend.ok []) = none := by
  decide

/-- C3 (amended): the helper model-listing script accepts the API key under
two environment-variable names with the first found winning, but the main
pipeline's evaluation phase accepts only the first name: when it is unset
the evaluation is skipped (even if the second name is set) while the raw
load still succeeds unchanged. -/
theorem C3_amended (env : Env) :
    (envTruthy env.gemini = true → list_models_api_key env = env.gemini) ∧
    (envTruthy env.gemini = false → list_models_api_key env = env.google) ∧
    (envTruthy env.gemini = false →
      ∀ (df : List Record) (b : Backend), run_evaluations env df b = none) ∧
    (∀ (fs : FileState) (b bl : Backend) (hl : Bool),
      (mainModel ⟨fs, env, b, bl, hl⟩).loadedCount = (load_data fs).map List.length) := by
  refine ⟨fun h => ?_, fun h => ?_, fun h df b => ?_, fun fs b bl hl => ?_⟩
  · simp [list_models_api_key, h]
  · simp [list_models_api_key, h]
  · simp [run_evaluations, h]
  · cases hld : load_data fs with
    | none => simp [mainModel, hld, noDataEffects]
    | some rs => cases hre : rs.isEmpty <;> simp [mainModel, hld, hre, noDataEffects]

/-- C3 witness: the amended behaviour at the concrete environment holding
only the fallback variable. -/
theorem C3_witness :
    list_models_api_key googleOnlyEnv = googleOnlyEnv.google ∧
    run_evaluations googleOnlyEnv [] (Backend.ok []) = none :=
  ⟨(C3_amended googleOnlyEnv).2.1 (by decide),
   (C3_amended googleOnlyEnv).2.2.1 (by decide) [] (Backend.ok [])⟩

/-- C4: in the merged table, every numeric-label dimension (clarity,
completeness, detail, accuracy) coerces its label string with a total
function: when the label does not parse as a number the merged score column
holds the NaN missing marker, and the explanation column is untouched. -/
theorem C4_coercion (s : String) (h : parseDecimal s = none) (v2 : CellVal) (e : String) :
    clarityCols [("label", CellVal.str s), ("score", v2), ("explanation", CellVal.str e)] =
      [("clarity_score", CellVal.metric MetricVal.missing),
        ("clarity_explanation", CellVal.str e)] ∧
    completenessCols [("label", CellVal.str s), ("score", v2), ("explanation", CellVal.str e)] =
      [("completeness_score", CellVal.metric MetricVal.missing),
        ("completeness_explanation", CellVal.str e)] ∧
    detailCols [("label", CellVal.str s), ("score", v2), ("explanation", CellVal.str e)] =
      [("detail_score", CellVal.metric MetricVal.missing),
        ("detail_explanation", CellVal.str e)] ∧
    accuracyCols [("label", CellVal.str s), ("score", v2), ("explanation", CellVal.str e)] =
      [("accuracy_score", CellVal.metric MetricVal.missing),
        ("accuracy_explanation", CellVal.str e)] := by
  have hcoerce : toNumericCoerce (CellVal.str s) = CellVal.metric MetricVal.missing := by
    simp [toNumericCoerce, h]
  have h1 : clarityCols [("label", CellVal.str s), ("score", v2), ("explanation", CellVal.str e)]
      = [("clarity_score", toNumericCoerce (CellVal.str s)),
          ("clarity_explanation", CellVal.str e)] := rfl
  have h2 : completenessCols [("label", CellVal.str s), ("score", v2), ("explanation", CellVal.str e)]
      = [("completeness_score", toNumericCoerce (CellVal.str s)),
          ("completeness_explanation", CellVal.str e)] := rfl
  have h3 : detailCols [("label", CellVal.str s), ("score", v2), ("explanation", CellVal.str e)]
      = [("detail_score", toNumericCoerce (CellVal.str s)),
          ("detail_explanation", CellVal.str e)] := rfl
  have h4 : accuracyCols [("label", CellVal.str s), ("score", v2), ("explanation", CellVal.str e)]
      = [("accuracy_score", toNumericCoerce (CellVal.str s)),
          ("accuracy_explanation", CellVal.str e)] := rfl
  exact ⟨by rw [h1, hcoerce], by rw [h2, hcoerce], by rw [h3, hcoerce], by rw [h4, hcoerce]⟩

/-- C4 witness: the clarity coercion at the concrete unparsable label
string. -/
theorem C4_witness :
    clarityCols [("label", CellVal.str "N/A"), ("score", CellVal.str "0.9"),
        ("explanation", CellVal.str "why")] =
      [("clarity_score", CellVal.metric MetricVal.missing),
        ("clarity_explanation", CellVal.str "why")] :=
  (C4_coercion "N/A" (by decide) (CellVal.str "0.9") "why").1

/-- C5: the verbosity pass derivation is case-insensitive — the derived
flag is 1 exactly when the label string, lowercased, equals the canonical
pass label; the merged `verbosity_is_good` column carries exactly this
derivation of the label; and the three casings of the pass label all derive
the same flag. -/
theorem C5_pass_case_insensitive :
    (∀ x : String, verbosityIsGood x = 1 ↔ strLower x = "good") ∧
    (∀ (x : String) (v2 : CellVal) (e : String),
      getCell "verbosity_is_good"
        (verbosityCols [("label", CellVal.str x), ("score", v2), ("explanation", CellVal.str e)]) =
        CellVal.nat (verbosityIsGood x)) ∧
    verbosityIsGood "good" = 1 ∧ verbosityIsGood "Good" = 1 ∧ verbosityIsGood "GOOD" = 1 := by
  refine ⟨fun x => ?_, fun x v2 e => rfl, by decide, by decide, by decide⟩
  by_cases hx : strLower x = "good" <;> simp [verbosityIsGood, hx]

/-- C5 witness: a mixed-case pass label derives the flag 1. -/
theorem C5_witness : verbosityIsGood "GoOd" = 1 :=
  (C5_pass_case_insensitive.1 "GoOd").mpr (by decide)

/-- C7: on a missing input file or malformed JSON, both readers return the
null result instead of raising, and the pipeline treats the absence of data
as a terminal state: it reports "no data" and exits nonzero only in
headless mode, never crashing. -/
theorem C7_soft_fail (fs : FileState) (env : Env) (b bl : Backend) (hl : Bool)
    (h : fs = FileState.missing ∨ fs = FileState.malformed) :
    load_data fs = none ∧ load_lower_level_data fs = none ∧
    (mainModel ⟨fs, env, b, bl, hl⟩).noDataReported = true ∧
    (mainModel ⟨fs, env, b, bl, hl⟩).exitCode = (if hl then some 1 else none) ∧
    (mainModel ⟨fs, env, b, bl, hl⟩).rawCsvWritten = false := by
  rcases h with h | h <;> subst h <;>
    simp [load_data, load_lower_level_data, mainModel, noDataEffects]

/-- The concrete missing-file headless run used as the C7 witness input. -/
def missingFileRun : RunInputs :=
  ⟨FileState.missing, ⟨none, none⟩, Backend.ok [], Backend.ok [], true⟩

/-- C7 witness: the soft-failure behaviour at a concrete missing-file
headless run. -/
theorem C7_witness :
    load_data FileState.missing = none ∧ load_lower_level_data FileState.missing = none ∧
    (mainModel missingFileRun).noDataReported = true ∧
    (mainModel missingFileRun).exitCode = (if true then some 1 else none) ∧
    (mainModel missingFileRun).rawCsvWritten = false :=
  C7_soft_fail FileState.missing ⟨none, none⟩
    (Backend.ok []) (Backend.ok []) true (Or.inl rfl)

/-- C8: for an input JSON whose `files` mapping is empty, the Reader
returns an empty table, the pipeline reports "no data", and the process
exits with a nonzero status exactly when the headless flag is set. -/
theorem C8_empty_files (env : Env) (b bl : Backend) (hl : Bool) :
    load_data (FileState.valid []) = some [] ∧
    (mainModel ⟨FileState.valid [], env, b, bl, hl⟩).noDataReported = true ∧
    (mainModel ⟨FileState.valid [], env, b, bl, hl⟩).exitCode = (if hl then some 1 else none) := by
  refine ⟨rfl, ?_, ?_⟩ <;> simp [mainModel, load_data, noDataEffects]

/-- C9: every Evaluation Record produced by the upper-level Reader holds a
`firstNLines` input field of at most 500 characters, regardless of the
original length in the capsule metadata. -/
theorem C9_truncation (files : List (String × Capsule)) (r : Record)
    (h : r ∈ (load_data (FileState.valid files)).getD []) :
    r.input.firstNLines.length ≤ 500 := by
  have h2 : r ∈ files.filterMap fun pc =>
      if capsuleIncluded pc.2 then some (mkRecord pc.1 pc.2) else none := by
    simpa [load_data] using h
  rw [List.mem_filterMap] at h2
  obtain ⟨pc, hmem, hf⟩ := h2
  by_cases hc : capsuleIncluded pc.2
  · rw [if_pos hc] at hf
    injection hf with hf
    subst hf
    have hb : ∀ s : String, (strTrunc 500 s).length ≤ 500 := fun s => by
      show (s.data.take 500).length ≤ 500
      simp [List.length_take]
    exact hb _
  · rw [if_neg hc] at hf
    cases hf

/-- A capsule whose metadata carries leading file text. -/
def textCapsule : Capsule :=
  { relativePath := "f.py"
    lang := "python"
    name := "f"
    upperLevelSummary := "sum"
    lowerLevelSummary := ""
    upperLevelSummaryVersion := none
    lowerLevelSummaryVersion := none
    exports := []
    imports := []
    structureBlocks := []
    metadata := some { functionSignatures := [], firstNLines := "line one and line two" } }

/-- C9 witness: the truncation bound evaluated on a concrete record of the
Reader. -/
theorem C9_witness :
    (mkRecord "f.py" textCapsule).input.firstNLines.length ≤ 500 :=
  C9_truncation [("f.py", textCapsule)] (mkRecord "f.py" textCapsule) (by decide)

/-- A result row of the external classifier has exactly the generic
`label`, `score`, `explanation` columns; this extracts its three values. -/
theorem row_keys_lse {l : Row} (h : l.map Prod.fst = ["label", "score", "explanation"]) :
    ∃ v1 v2 v3, l = [("label", v1), ("score", v2), ("explanation", v3)] := by
  rcases l with _ | ⟨⟨a1, w1⟩, l⟩
  · simp at h
  rcases l with _ | ⟨⟨a2, w2⟩, l⟩
  · simp at h
  rcases l with _ | ⟨⟨a3, w3⟩, l⟩
  · simp at h
  rcases l with _ | ⟨⟨a4, w4⟩, l⟩
  · simp only [List.map_cons, List.map_nil, List.cons.injEq, and_true] at h
    obtain ⟨h1, h2, h3⟩ := h
    exact ⟨w1, w2, w3, by rw [h1, h2, h3]⟩
  · simp at h

/-- C10: the merge step appends exactly the named metric columns to a
record row — two clarity columns, three verbosity columns (label,
explanation, derived flag) and two completeness columns; the renamed
confidence columns (`clarity_numeric`, `verbosity_confidence`,
`completeness_numeric`) are dropped before the join, and the original
record columns are left unchanged as the initial segment of the merged
row. -/
theorem C10_merge_frame (base cl vb cp : Row)
    (hcl : cl.map Prod.fst = ["label", "score", "explanation"])
    (hvb : vb.map Prod.fst = ["label", "score", "explanation"])
    (hcp : cp.map Prod.fst = ["label", "score", "explanation"]) :
    mergeUpperRow base cl vb cp =
      base ++ (clarityCols cl ++ (verbosityCols vb ++ completenessCols cp)) ∧
    (clarityCols cl ++ (verbosityCols vb ++ completenessCols cp)).map Prod.fst =
      ["clarity_score", "clarity_explanation", "verbosity_label", "verbosity_explanation",
        "verbosity_is_good", "completeness_score", "completeness_explanation"] := by
  obtain ⟨v1, v2, v3, rfl⟩ := row_keys_lse hcl
  obtain ⟨w1, w2, w3, rfl⟩ := row_keys_lse hvb
  obtain ⟨u1, u2, u3, rfl⟩ := row_keys_lse hcp
  exact ⟨by simp [mergeUpperRow, List.append_assoc], rfl⟩

/-- A concrete base record row for the merge. -/
def mergeBaseRow : Row := [("id", CellVal.str "a.py"), ("output", CellVal.str "summary")]

/-- A concrete clarity result row. -/
def clarityEvalRow : Row :=
  [("label", CellVal.str "4"), ("score", CellVal.str "0.9"), ("explanation", CellVal.str "clear")]

/-- A concrete verbosity result row. -/
def verbosityEvalRow : Row :=
  [("label", CellVal.str "Good"), ("score", CellVal.str "0.8"), ("explanation", CellVal.str "fits")]

/-- A concrete completeness result row. -/
def completenessEvalRow : Row :=
  [("label", CellVal.str "5"), ("score", CellVal.str "0.7"), ("explanation", CellVal.str "full")]

/-- C10 witness: the merge frame property evaluated at concrete rows. -/
theorem C10_witness :
    mergeUpperRow mergeBaseRow clarityEvalRow verbosityEvalRow completenessEvalRow =
      mergeBaseRow ++ (clarityCols clarityEvalRow ++
        (verbosityCols verbosityEvalRow ++ completenessCols completenessEvalRow)) ∧
    (clarityCols clarityEvalRow ++
        (verbosityCols verbosityEvalRow ++ completenessCols completenessEvalRow)).map Prod.fst =
      ["clarity_score", "clarity_explanation", "verbosity_label", "verbosity_explanation",
        "verbosity_is_good", "completeness_score", "completeness_explanation"] :=
  C10_merge_frame mergeBaseRow clarityEvalRow verbosityEvalRow completenessEvalRow rfl rfl rfl
